import Mathlib

/-!
Verification of the llm-therapist batch pipeline.

This file gives a shallow embedding of the repository under scrutiny:
`src/text_analyzer.py`, `src/llm_interface.py`, `src/reddit_scraper.py`,
`src/database.py` (the SQLite store used by the pipeline) and
`src/pipeline.py`.  Pure Python functions become Lean functions; the SQLite
tables become explicit list-backed state; external collaborators (the Reddit
API, the OpenAI client, the sentence-transformer model, the wall clock) become
oracle parameters.  All definitions are executable and decidable so that the
theorems below can be exercised on concrete inputs.
-/

namespace LlmTherapist

/-! ## Python string primitives

Python strings are sequences of code points; Lean `String.data` is the list of
code points, so the Python slicing and scanning primitives used by the source
are modelled over `String.data`. -/

/-- Characters removed by the Python `str.strip()` default whitespace set
(the ASCII portion, which is what the OpenAI responses can contain here). -/
def py_isspace (c : Char) : Bool :=
  c == ' ' || c == '\t' || c == '\n' || c == '\x0d' || c == '\x0b' || c == '\x0c'

/-- Python `s.strip()`: drop whitespace from both ends. -/
def py_strip (s : String) : String :=
  ⟨((s.data.dropWhile py_isspace).reverse.dropWhile py_isspace).reverse⟩

/-- Python `str.lower()` restricted to the character ranges that occur in this
program: ASCII letters and the Latin-1 uppercase letters (À..Þ, excluding ×),
which covers the Portuguese answers "Sim"/"Não" in any capitalisation. -/
def py_char_lower (c : Char) : Char :=
  if 'A' ≤ c && c ≤ 'Z' then Char.ofNat (c.toNat + 32)
  else if 0xC0 ≤ c.toNat && c.toNat ≤ 0xDE && c.toNat != 0xD7 then Char.ofNat (c.toNat + 32)
  else c

/-- Python `s.lower()` (code-point wise). -/
def py_lower (s : String) : String := ⟨s.data.map py_char_lower⟩

/-- Python `s.startswith(p)`: code-point list is a prefix of the other. -/
def py_startswith (s p : String) : Bool := p.data.isPrefixOf s.data

/-- Python `s[:n]`: the first `n` code points. -/
def py_take (s : String) (n : Nat) : String := ⟨s.data.take n⟩

/-! ## text_analyzer.py

`calculate_similarity(text1, text2)` from `src/text_analyzer.py`.  The
module-level `similarity_model` global (which is `None` when loading failed)
becomes the Boolean `modelLoaded`; the encode/cosine computation on the loaded
model becomes the oracle `cos`, which returns `none` exactly when the Python
`try` block raises.  The Python float result is modelled as a rational. -/

/-- Python builtin `min(a, b)` on numbers (returns the first argument on ties). -/
def py_min (a b : ℚ) : ℚ := if b < a then b else a

/-- Python builtin `max(a, b)` on numbers (returns the first argument on ties). -/
def py_max (a b : ℚ) : ℚ := if a < b then b else a

/-- Clamp of line 37: `max(0.0, min(1.0, similarity_score))`. -/
def clamp01 (q : ℚ) : ℚ := py_max 0 (py_min 1 q)

/-- Shallow embedding of `calculate_similarity`.  Branch order follows the
source: the model check (line 20) precedes the empty-input check (line 23,
Python truthiness of a string is nonemptiness), which precedes the guarded
encode/cosine computation. -/
def calculate_similarity (modelLoaded : Bool) (cos : String → String → Option ℚ)
    (text1 text2 : String) : Option ℚ :=
  if !modelLoaded then none
  else if text1.isEmpty || text2.isEmpty then some 0
  else
    match cos text1 text2 with
    | some raw => some (clamp01 raw)
    | none => none

/-! ## llm_interface.py

`verify_comment_advice(post_title, post_body, comment_body)` from
`src/llm_interface.py`.  The module-level `client` global becomes the Boolean
`clientInit`; the chat-completion call becomes the oracle `llm` from the user
prompt to the response content, returning `none` on timeout, API error, a
missing content field, or any other exception of the `try` block. -/

/-- Cap on the comment body, line 86. -/
def max_comment_len : Nat := 500

/-- Cap on the post body, line 93. -/
def max_post_body_len : Nat := 1000

/-- Verification prompt template of lines 96 to 107 (the f-string, with its
literal indentation and line breaks), instantiated at the already truncated
bodies. -/
def verification_prompt (post_title truncated_post_body truncated_comment_body : String) :
    String :=
  "\n    Contexto: Post Original no r/desabafos\n    Título: " ++ post_title ++
  "\n    Corpo: " ++ truncated_post_body ++
  "\n    ---\n    Comentário feito neste post:\n    \"" ++ truncated_comment_body ++
  "\"\n    ---\n    Pergunta: Este comentário está fornecendo conselho direto, apoio emocional, uma perspectiva relevante ou uma pergunta construtiva em resposta direta ao conteúdo e desabafo do post original? Foque em diferenciar conselhos/apoio de mensagens automáticas de MOD, perguntas genéricas não relacionadas ao desabafo (ex: \"O que aconteceu?\"), ou meta-comentários sobre o Reddit.\n\n    Responda APENAS com \"Sim\" ou \"Não\".\n    "

/-- Mapping of the response content, lines 121 to 131: strip, lower, then the
three-way branch on a leading "sim", a leading "não" or "nao", or anything
else. -/
def map_verification_answer (content : String) : Option Bool :=
  if py_startswith (py_lower (py_strip content)) "sim" then some true
  else if py_startswith (py_lower (py_strip content)) "não" ||
      py_startswith (py_lower (py_strip content)) "nao" then
    some false
  else none

/-- Shallow embedding of `verify_comment_advice` (lines 67 to 140).  The
`post_body[:max_post_body_len] if post_body else ""` guard of line 94 is the
Python truthiness test, that is, a test for nonemptiness. -/
def verify_comment_advice (clientInit : Bool) (llm : String → Option String)
    (post_title post_body comment_body : String) : Option Bool :=
  if !clientInit then none
  else
    match llm (verification_prompt post_title
        (if post_body = "" then "" else py_take post_body max_post_body_len)
        (py_take comment_body max_comment_len)) with
    | some content => map_verification_answer content
    | none => none

/-! ## reddit_scraper.py

`get_subreddit_posts(reddit, subreddit_name, limit)` from
`src/reddit_scraper.py`.  The PRAW listing call `subreddit.new(limit=limit*3)`
becomes the oracle `new` from the subreddit name and the requested count to the
fetched submissions, `none` when the `try` block raises.  `time.time()` becomes
the parameter `now` (timestamps modelled as integer seconds on the same ordered
time axis). -/

/-- A PRAW submission, restricted to the fields the program reads. -/
structure Submission where
  id : String
  title : String
  selftext : String
  permalink : String
  created_utc : Int
deriving Repr, DecidableEq

/-- A PRAW comment, restricted to the fields the program reads. -/
structure CommentInfo where
  id : String
  body : String
  score : Int
deriving Repr, DecidableEq

/-- Shallow embedding of `get_subreddit_posts` (lines 26 to 45): over-fetch by
a factor of 3, keep the submissions created within the last 24 hours, truncate
to `limit`; return the empty list when the adapter raised. -/
def get_subreddit_posts (new : String → Nat → Option (List Submission))
    (subreddit_name : String) (limit : Nat) (now : Int) : List Submission :=
  match new subreddit_name (limit * 3) with
  | none => []
  | some all_posts =>
      (all_posts.filter (fun s => s.created_utc ≥ now - 24 * 60 * 60)).take limit

/-- Condition of line 38 under which the under-fulfillment warning (rather
than the info message) is logged; on the exception path an error is logged
instead. -/
def get_subreddit_posts_warned (new : String → Nat → Option (List Submission))
    (subreddit_name : String) (limit : Nat) (now : Int) : Bool :=
  match new subreddit_name (limit * 3) with
  | none => false
  | some all_posts =>
      decide
        ((((all_posts.filter (fun s => s.created_utc ≥ now - 24 * 60 * 60)).take limit).length)
          < limit)

/-! ## database.py (the SQLite store used by the pipeline)

The three tables become three lists of rows; `CURRENT_TIMESTAMP` becomes the
explicit parameter `now`.  Each write function returns the new store state plus
a `WriteOutcome` recording which branch of the SQL/exception handling ran.
`PRAGMA foreign_keys = ON` is in force (set in `get_db_connection`), so an
INSERT whose `post_id` has no parent row raises `sqlite3.IntegrityError`, which
the functions catch and roll back, leaving the store unchanged.  SQLite upsert
semantics, checked against a live SQLite: a uniqueness conflict is resolved
first and turns the statement into the DO UPDATE, whose foreign keys are
checked on the updated row (which keeps its stored `post_id`); only an actual
insert checks the incoming `post_id` against `processed_posts`. -/

/-- A row of `processed_posts` (schema lines 32 to 42). -/
structure PostRow where
  post_id : String
  post_url : String
  post_title : String
  post_body : String
  created_utc : Option Int
  processed_at : Nat
deriving Repr, DecidableEq

/-- A row of `llm_data` (schema lines 48 to 57). -/
structure LlmRow where
  post_id : String
  input_prompt : String
  llm_response : String
  created_at : Nat
deriving Repr, DecidableEq

/-- A row of `post_comments` (schema lines 61 to 74). -/
structure CommentRow where
  post_id : String
  comment_id : String
  comment_body : String
  comment_score : Int
  comment_rank : Nat
  is_actual_advice : Option Bool
  similarity_score : Option ℚ
  fetched_at : Nat
deriving Repr, DecidableEq

/-- The store: the three tables. -/
structure DB where
  posts : List PostRow
  llm : List LlmRow
  comments : List CommentRow
deriving Repr, DecidableEq

/-- Which branch of a write ran: a fresh INSERT, a resolved ON CONFLICT DO
UPDATE, a resolved ON CONFLICT DO NOTHING, or a caught foreign-key
IntegrityError followed by rollback. -/
inductive WriteOutcome where
  | inserted
  | updated
  | ignoredConflict
  | fkError
deriving Repr, DecidableEq

/-- The dict produced by `extract_post_data` and consumed by
`insert_processed_post`. -/
structure PostData where
  post_id : String
  post_url : String
  post_title : String
  post_body : String
  created_utc : Option Int
deriving Repr, DecidableEq

/-- The `comment_data` dict of pipeline lines 124 to 132, consumed by
`insert_post_comment`. -/
structure CommentData where
  post_id : String
  comment_id : String
  comment_body : String
  comment_score : Int
  comment_rank : Nat
  is_actual_advice : Option Bool
  similarity_score : Option ℚ
deriving Repr, DecidableEq

/-- `check_post_processed` (database lines 93 to 101): SELECT 1 WHERE
post_id matches. -/
def check_post_processed (db : DB) (post_id : String) : Bool :=
  db.posts.any (fun r => r.post_id == post_id)

/-- `insert_processed_post` (database lines 104 to 137): INSERT INTO
processed_posts ... ON CONFLICT(post_id) DO NOTHING.  The `created_utc`
normalisation of lines 106 to 115 is the identity on the
datetime-or-None values the pipeline passes. -/
def insert_processed_post (db : DB) (now : Nat) (data : PostData) : DB × WriteOutcome :=
  if db.posts.any (fun r => r.post_id == data.post_id) then (db, .ignoredConflict)
  else
    ({ db with posts := db.posts ++
        [⟨data.post_id, data.post_url, data.post_title, data.post_body, data.created_utc, now⟩] },
      .inserted)

/-- The value `insert_processed_post` returns to its Python caller: the
function body has no return statement on any path, so every call returns
None.  (`cursor.rowcount` is consulted only to choose a log message.) -/
def insert_processed_post_py_return (db : DB) (now : Nat) (data : PostData) : Option Bool :=
  none

/-- `insert_llm_data` (database lines 140 to 160): INSERT INTO llm_data ...
ON CONFLICT(post_id) DO UPDATE SET input_prompt, llm_response, created_at.
A conflict on the UNIQUE post_id resolves to the update; a fresh insert whose
post_id has no parent Post raises IntegrityError, caught with rollback. -/
def insert_llm_data (db : DB) (now : Nat) (post_id input_prompt llm_response : String) :
    DB × WriteOutcome :=
  if db.llm.any (fun r => r.post_id == post_id) then
    ({ db with llm := db.llm.map (fun r =>
        if r.post_id == post_id then
          { r with
            input_prompt := input_prompt
            llm_response := llm_response
            created_at := now }
        else r) }, .updated)
  else if db.posts.any (fun r => r.post_id == post_id) then
    ({ db with llm := db.llm ++ [⟨post_id, input_prompt, llm_response, now⟩] }, .inserted)
  else (db, .fkError)

/-- `insert_post_comment` (database lines 163 to 194): INSERT INTO
post_comments ... ON CONFLICT(comment_id) DO UPDATE SET comment_score,
is_actual_advice, similarity_score, fetched_at.  Rank and body are not
updated on conflict (source comment, line 177); a fresh insert whose post_id
has no parent Post raises IntegrityError, caught with rollback. -/
def insert_post_comment (db : DB) (now : Nat) (c : CommentData) : DB × WriteOutcome :=
  if db.comments.any (fun r => r.comment_id == c.comment_id) then
    ({ db with comments := db.comments.map (fun r =>
        if r.comment_id == c.comment_id then
          { r with
            comment_score := c.comment_score
            is_actual_advice := c.is_actual_advice
            similarity_score := c.similarity_score
            fetched_at := now }
        else r) }, .updated)
  else if db.posts.any (fun r => r.post_id == c.post_id) then
    ({ db with comments := db.comments ++
        [⟨c.post_id, c.comment_id, c.comment_body, c.comment_score, c.comment_rank,
          c.is_actual_advice, c.similarity_score, now⟩] }, .inserted)
  else (db, .fkError)

/-- Referential integrity of the store: every child row has a parent Post. -/
def fk_ok (db : DB) : Bool :=
  db.llm.all (fun r => check_post_processed db r.post_id) &&
  db.comments.all (fun r => check_post_processed db r.post_id)

/-! ## pipeline.py

`run_pipeline` from `src/pipeline.py`, the per-post loop of lines 42 to 153.
External effects become the environment `Env`: `llm_op` is
`llm_interface.get_llm_response` (returning the prompt/response dict or None),
`top_comments` is `reddit_scraper.get_top_comments` keyed by submission id,
`verify` is `llm_interface.verify_comment_advice`, `sim` is
`text_analyzer.calculate_similarity`; `raises` marks a post whose processing
raises an unexpected exception (modelled at the data-extraction step of line
57, the first statement after the skip check) and `interrupt` marks a
KeyboardInterrupt.  The wall clock becomes a logical clock ticking once per
post; `time.sleep` calls are recorded in a trace of their second counts. -/

/-- Delay constant of line 8. -/
def POST_PROCESSING_DELAY : Nat := 5

/-- Delay constant of line 10. -/
def INTRA_POST_LLM_DELAY : Nat := 3

/-- `extract_post_data` (reddit_scraper lines 87 to 96). -/
def extract_post_data (s : Submission) : PostData :=
  { post_id := s.id
    post_url := "https://www.reddit.com" ++ s.permalink
    post_title := s.title
    post_body := s.selftext
    created_utc := some s.created_utc }

/-- The dict returned by `get_llm_response` on success. -/
structure LlmOpResult where
  prompt : String
  response : String
deriving Repr, DecidableEq

/-- The external collaborators and failure events of one pipeline run. -/
structure Env where
  interrupt : String → Bool
  raises : String → Bool
  llm_op : String → String → Option LlmOpResult
  top_comments : String → List CommentInfo
  verify : String → String → String → Option Bool
  sim : String → String → Option ℚ

/-- The observable effects of processing one post: the store state, the
`time.sleep` trace, and the `get_llm_response` calls issued. -/
structure StepEffects where
  db : DB
  sleeps : List Nat
  llm_op_calls : List (String × String)

/-- How the body of the per-post loop exited. -/
inductive StepTag where
  | skippedStep
  | processedStep
  | failedStep
  | interruptedStep
deriving Repr, DecidableEq

/-- One iteration of the inner comment loop (pipeline lines 98 to 134):
verify the comment, compute similarity for the rank-1 comment when the main
advice is a nonempty string (Python truthiness, line 114), and upsert the
comment row. -/
def processComment (env : Env) (s : Submission) (advice : String) (now : Nat)
    (db : DB) (rank : Nat) (c : CommentInfo) : DB :=
  (insert_post_comment db now
    { post_id := s.id
      comment_id := c.id
      comment_body := c.body
      comment_score := c.score
      comment_rank := rank
      is_actual_advice := env.verify s.title s.selftext c.body
      similarity_score :=
        if rank = 1 ∧ advice ≠ "" then env.sim c.body advice else none }).1

/-- The comment loop over `enumerate(top_comments, start=1)`. -/
def processComments (env : Env) (s : Submission) (advice : String) (now : Nat)
    (db : DB) (cs : List CommentInfo) : DB :=
  (List.enumFrom 1 cs).foldl (fun d rc => processComment env s advice now d rc.1 rc.2) db

/-- The body of the per-post loop (pipeline lines 47 to 153), in source
order: KeyboardInterrupt breaks the loop; the skip check of line 51 comes
first; an unexpected exception is caught at the post boundary with an
extended delay (line 153); an advice failure skips the post after the
intra-post delay of line 64 and the pacing delay of line 79; on success the
Post row is written (line 71), then the Advice row (line 72), then the
comment fetch (sleep of line 85), the comment loop (a verification delay per
comment, line 108), the second Post write of line 140 and the pacing delay of
line 145. -/
def processOne (env : Env) (db : DB) (now : Nat) (s : Submission) : StepEffects × StepTag :=
  if env.interrupt s.id then (⟨db, [], []⟩, .interruptedStep)
  else if check_post_processed db s.id then (⟨db, [], []⟩, .skippedStep)
  else if env.raises s.id then (⟨db, [POST_PROCESSING_DELAY * 2], []⟩, .failedStep)
  else
    match env.llm_op s.title s.selftext with
    | none =>
        (⟨db, [INTRA_POST_LLM_DELAY, POST_PROCESSING_DELAY], [(s.title, s.selftext)]⟩,
          .failedStep)
    | some r =>
        let db1 := (insert_processed_post db now (extract_post_data s)).1
        let db2 := (insert_llm_data db1 now s.id r.prompt r.response).1
        let cs := env.top_comments s.id
        if cs.isEmpty then
          (⟨db2, [INTRA_POST_LLM_DELAY, 1, POST_PROCESSING_DELAY], [(s.title, s.selftext)]⟩,
            .processedStep)
        else
          let db3 := processComments env s r.response now db2 cs
          let db4 := (insert_processed_post db3 now (extract_post_data s)).1
          (⟨db4, [INTRA_POST_LLM_DELAY, 1] ++ cs.map (fun _ => INTRA_POST_LLM_DELAY) ++
              [POST_PROCESSING_DELAY], [(s.title, s.selftext)]⟩, .processedStep)

/-- The run-level state: store, logical clock, the three counters of lines
39 to 41, and the effect traces. -/
structure RunState where
  db : DB
  clock : Nat
  processed_count : Nat
  skipped_count : Nat
  error_count : Nat
  sleeps : List Nat
  llm_op_calls : List (String × String)

/-- The per-post loop of `run_pipeline` over the fetched batch: counters are
bumped according to how the body exited, and a KeyboardInterrupt breaks out
of the loop. -/
def runLoop (env : Env) : RunState → List Submission → RunState
  | st, [] => st
  | st, s :: rest =>
    let step := processOne env st.db st.clock s
    let st1 : RunState :=
      { st with
        db := step.1.db
        clock := st.clock + 1
        sleeps := st.sleeps ++ step.1.sleeps
        llm_op_calls := st.llm_op_calls ++ step.1.llm_op_calls }
    match step.2 with
    | .skippedStep => runLoop env { st1 with skipped_count := st1.skipped_count + 1 } rest
    | .processedStep => runLoop env { st1 with processed_count := st1.processed_count + 1 } rest
    | .failedStep => runLoop env { st1 with error_count := st1.error_count + 1 } rest
    | .interruptedStep => st1

end LlmTherapist

namespace LlmTherapist

/-- The clamped score always lies in the unit interval. -/
lemma clamp01_bounds (q : ℚ) : 0 ≤ clamp01 q ∧ clamp01 q ≤ 1 := by
  unfold clamp01 py_max py_min
  split_ifs <;> constructor <;> linarith

/-- C6, as frozen, is false on the code: when the similarity model failed to
load, the sentinel `none` is returned even for an empty input text, because the
model check precedes the empty-input check.  Concrete input: model unloaded,
`text1 = ""`, `text2 = "x"`. -/
theorem C6_counterexample :
    calculate_similarity false (fun _ _ => some (1/2)) "" "x" = none ∧
    calculate_similarity false (fun _ _ => some (1/2)) "" "x" ≠ some 0 :=
  ⟨rfl, by simp [calculate_similarity]⟩

/-- C6 (amended): every successful similarity score lies in [0,1]; provided the
model loaded, an empty input yields exactly 0 and never the sentinel; the
sentinel `none` is returned whenever the scorer failed to initialize (for every
pair, empty inputs included) and on a runtime encoding error for nonempty
inputs. -/
theorem C6_similarity_bounds :
    (∀ (m : Bool) (cos : String → String → Option ℚ) (t1 t2 : String) (q : ℚ),
        calculate_similarity m cos t1 t2 = some q → 0 ≤ q ∧ q ≤ 1)
  ∧ (∀ (cos : String → String → Option ℚ) (t1 t2 : String),
        (t1.isEmpty || t2.isEmpty) = true → calculate_similarity true cos t1 t2 = some 0)
  ∧ (∀ (cos : String → String → Option ℚ) (t1 t2 : String),
        calculate_similarity false cos t1 t2 = none)
  ∧ (∀ (cos : String → String → Option ℚ) (t1 t2 : String),
        t1.isEmpty = false → t2.isEmpty = false → cos t1 t2 = none →
        calculate_similarity true cos t1 t2 = none) := by
  refine ⟨?_, ?_, ?_, ?_⟩
  · intro m cos t1 t2 q h
    unfold calculate_similarity at h
    by_cases hm : m
    · subst hm
      rw [if_neg (by decide)] at h
      by_cases he : (t1.isEmpty || t2.isEmpty) = true
      · rw [if_pos he] at h
        cases h
        norm_num
      · rw [if_neg he] at h
        cases hc : cos t1 t2 with
        | none => rw [hc] at h; cases h
        | some raw =>
            rw [hc] at h
            cases h
            exact clamp01_bounds raw
    · simp only [Bool.not_eq_true] at hm
      subst hm
      simp at h
  · intro cos t1 t2 he
    simp [calculate_similarity, he]
  · intro cos t1 t2
    simp [calculate_similarity]
  · intro cos t1 t2 h1 h2 hc
    simp [calculate_similarity, h1, h2, hc]

/-- Witness: the four parts of `C6_similarity_bounds` exercised on concrete
inputs, each hypothesis discharged there. -/
theorem C6_similarity_bounds_witness :
    (0 ≤ (1/2 : ℚ) ∧ (1/2 : ℚ) ≤ 1)
  ∧ calculate_similarity true (fun _ _ => some (1/2)) "" "x" = some 0
  ∧ calculate_similarity false (fun _ _ => some (1/2)) "a" "b" = none
  ∧ calculate_similarity true (fun _ _ => none) "a" "b" = none :=
  ⟨C6_similarity_bounds.1 true (fun _ _ => some (1/2)) "a" "b" (1/2)
      (by
        unfold calculate_similarity
        rw [if_neg (by decide), if_neg (by decide)]
        show some (clamp01 (1/2 : ℚ)) = some (1/2)
        unfold clamp01 py_max py_min
        norm_num),
   C6_similarity_bounds.2.1 (fun _ _ => some (1/2)) "" "x" (by decide),
   C6_similarity_bounds.2.2.1 (fun _ _ => some (1/2)) "a" "b",
   C6_similarity_bounds.2.2.2 (fun _ _ => none) "a" "b" rfl rfl rfl⟩

/-- C10: the model-availability check precedes the empty-input check, so a
failed model load returns the sentinel `none` on every input pair, empty texts
included; the 0.0-for-empty special case fires only when the model is
loaded. -/
theorem C10_model_check_precedes_empty_check :
    (∀ (cos : String → String → Option ℚ) (t1 t2 : String),
        calculate_similarity false cos t1 t2 = none)
  ∧ (∀ (cos : String → String → Option ℚ) (t1 t2 : String),
        (t1.isEmpty || t2.isEmpty) = true →
        calculate_similarity true cos t1 t2 = some 0) := by
  constructor
  · intro cos t1 t2
    simp [calculate_similarity]
  · intro cos t1 t2 he
    simp [calculate_similarity, he]

/-- Witness: `C10_model_check_precedes_empty_check` at concrete inputs,
including the empty-text pair under a failed model load. -/
theorem C10_model_check_precedes_empty_check_witness :
    calculate_similarity false (fun _ _ => some (1/2)) "" "" = none
  ∧ calculate_similarity true (fun _ _ => some (1/2)) "" "y" = some 0 :=
  ⟨C10_model_check_precedes_empty_check.1 (fun _ _ => some (1/2)) "" "",
   C10_model_check_precedes_empty_check.2 (fun _ _ => some (1/2)) "" "y" (by decide)⟩

/-- A string that starts with a nonempty pattern starts with the head
character of that pattern. -/
lemma py_startswith_cons (a p : String) (c : Char) (cs : List Char)
    (hp : p.data = c :: cs) (h : py_startswith a p = true) :
    ∃ ds, a.data = c :: ds := by
  unfold py_startswith at h
  rw [hp] at h
  cases ha : a.data with
  | nil => rw [ha] at h; simp [List.isPrefixOf] at h
  | cons d ds =>
      rw [ha] at h
      simp only [List.isPrefixOf, Bool.and_eq_true, beq_iff_eq] at h
      exact ⟨ds, by rw [h.1]⟩

/-- A normalized answer leading with the negative word cannot also lead with
the affirmative word. -/
lemma nao_not_sim {a : String}
    (h : py_startswith a "não" = true ∨ py_startswith a "nao" = true) :
    py_startswith a "sim" = false := by
  cases hs : py_startswith a "sim" with
  | false => rfl
  | true =>
      obtain ⟨ds, hds⟩ := py_startswith_cons a "sim" 's' ['i', 'm'] rfl hs
      cases h with
      | inl h1 =>
          obtain ⟨es, hes⟩ := py_startswith_cons a "não" 'n' ['ã', 'o'] rfl h1
          rw [hds] at hes
          injection hes with h1 _
          exact absurd h1 (by decide)
      | inr h2 =>
          obtain ⟨es, hes⟩ := py_startswith_cons a "nao" 'n' ['a', 'o'] rfl h2
          rw [hds] at hes
          injection hes with h1 _
          exact absurd h1 (by decide)

/-- Truncation is idempotent: slicing an already sliced string is the identity. -/
lemma py_take_take (s : String) (n : Nat) : py_take (py_take s n) n = py_take s n := by
  unfold py_take
  simp [List.take_take]

/-- Slicing the empty string yields the empty string. -/
lemma py_take_empty (n : Nat) : py_take "" n = "" := by
  unfold py_take
  apply String.ext
  simp

/-- For a positive cap, a slice is empty exactly when the string is. -/
lemma py_take_eq_empty_iff (s : String) (n : Nat) (hn : n ≠ 0) :
    (py_take s n = "") ↔ (s = "") := by
  constructor
  · intro h
    have hd : s.data.take n = ([] : List Char) := congrArg String.data h
    rcases List.take_eq_nil_iff.mp hd with h1 | h1
    · exact absurd h1 hn
    · exact String.ext h1
  · intro h
    subst h
    exact py_take_empty n

/-- C7: the classifier mapping is total into the three values true, false and
unknown; an affirmative-leading normalized response maps to true; a
negative-leading normalized response (accented or unaccented spelling) maps to
false; anything else, and any call failure, maps to unknown; and the function
behaves exactly as if its body inputs had been truncated beforehand (comment
body to 500 code points, post body to 1000). -/
theorem C7_classifier_totality :
    (∀ content, map_verification_answer content = some true ∨
        map_verification_answer content = some false ∨
        map_verification_answer content = none)
  ∧ (∀ content, py_startswith (py_lower (py_strip content)) "sim" = true →
        map_verification_answer content = some true)
  ∧ (∀ content, (py_startswith (py_lower (py_strip content)) "não" = true ∨
        py_startswith (py_lower (py_strip content)) "nao" = true) →
        map_verification_answer content = some false)
  ∧ (∀ content, py_startswith (py_lower (py_strip content)) "sim" = false →
        py_startswith (py_lower (py_strip content)) "não" = false →
        py_startswith (py_lower (py_strip content)) "nao" = false →
        map_verification_answer content = none)
  ∧ (∀ (i : Bool) (llm : String → Option String) (t b c : String),
        llm (verification_prompt t (if b = "" then "" else py_take b max_post_body_len)
              (py_take c max_comment_len)) = none →
        verify_comment_advice i llm t b c = none)
  ∧ (∀ (i : Bool) (llm : String → Option String) (t b c : String),
        verify_comment_advice i llm t b c =
        verify_comment_advice i llm t (py_take b max_post_body_len)
          (py_take c max_comment_len)) := by
  refine ⟨?_, ?_, ?_, ?_, ?_, ?_⟩
  · intro content
    unfold map_verification_answer
    split_ifs <;> simp
  · intro content h
    simp [map_verification_answer, h]
  · intro content h
    have hs := nao_not_sim h
    rcases h with h1 | h1 <;>
      simp [map_verification_answer, hs, h1]
  · intro content h1 h2 h3
    simp [map_verification_answer, h1, h2, h3]
  · intro i llm t b c h
    cases i with
    | false => rfl
    | true =>
        show (match llm (verification_prompt t
            (if b = "" then "" else py_take b max_post_body_len)
            (py_take c max_comment_len)) with
          | some content => map_verification_answer content
          | none => none) = none
        rw [h]
  · intro i llm t b c
    cases i with
    | false => rfl
    | true =>
        have harg : (if py_take b max_post_body_len = "" then ""
            else py_take (py_take b max_post_body_len) max_post_body_len)
            = (if b = "" then "" else py_take b max_post_body_len) := by
          by_cases hb : b = ""
          · subst hb
            rw [py_take_empty, if_pos rfl, if_pos rfl]
          · rw [if_neg hb,
              if_neg (fun hx => hb ((py_take_eq_empty_iff b max_post_body_len (by decide)).mp hx)),
              py_take_take]
        show (match llm (verification_prompt t
            (if b = "" then "" else py_take b max_post_body_len)
            (py_take c max_comment_len)) with
          | some content => map_verification_answer content
          | none => none) =
          (match llm (verification_prompt t
            (if py_take b max_post_body_len = "" then ""
              else py_take (py_take b max_post_body_len) max_post_body_len)
            (py_take (py_take c max_comment_len) max_comment_len)) with
          | some content => map_verification_answer content
          | none => none)
        rw [harg, py_take_take]

/-- Witness: the conjuncts of `C7_classifier_totality` with hypotheses, each
exercised at a concrete input. -/
theorem C7_classifier_totality_witness :
    map_verification_answer " Sim, este comentário ajuda." = some true
  ∧ map_verification_answer "NÃO." = some false
  ∧ map_verification_answer "Talvez" = none
  ∧ verify_comment_advice true (fun _ => none) "t" "corpo" "coment" = none
  ∧ verify_comment_advice true (fun s => some s) "t" "corpo" "coment" =
      verify_comment_advice true (fun s => some s) "t" (py_take "corpo" max_post_body_len)
        (py_take "coment" max_comment_len) :=
  ⟨C7_classifier_totality.2.1 " Sim, este comentário ajuda." (by decide),
   C7_classifier_totality.2.2.1 "NÃO." (Or.inl (by decide)),
   C7_classifier_totality.2.2.2.1 "Talvez" (by decide) (by decide) (by decide),
   C7_classifier_totality.2.2.2.2.1 true (fun _ => none) "t" "corpo" "coment" rfl,
   C7_classifier_totality.2.2.2.2.2 true (fun s => some s) "t" "corpo" "coment"⟩

/-- C9: `get_subreddit_posts` over-fetches a 3x superset, keeps exactly the
submissions created within the 24-hour window, truncates to `limit`, and on
success equals the windowed, truncated fetch; every returned submission is in
the window and a sub-sequence of the fetch; the result never exceeds `limit`;
when fewer remain the shorter list is returned with the warning condition
holding exactly then; an adapter error yields the empty list; and the result
depends on the adapter only through the `limit * 3` query. -/
theorem C9_fetch_recent_posts :
    (∀ (new : String → Nat → Option (List Submission)) (name : String) (limit : Nat)
        (now : Int) (l : List Submission), new name (limit * 3) = some l →
        get_subreddit_posts new name limit now =
          (l.filter (fun s => s.created_utc ≥ now - 24 * 60 * 60)).take limit)
  ∧ (∀ (new : String → Nat → Option (List Submission)) (name : String) (limit : Nat)
        (now : Int), ∀ s ∈ get_subreddit_posts new name limit now,
        s.created_utc ≥ now - 24 * 60 * 60)
  ∧ (∀ (new : String → Nat → Option (List Submission)) (name : String) (limit : Nat)
        (now : Int), (get_subreddit_posts new name limit now).length ≤ limit)
  ∧ (∀ (new : String → Nat → Option (List Submission)) (name : String) (limit : Nat)
        (now : Int) (l : List Submission), new name (limit * 3) = some l →
        List.Sublist (get_subreddit_posts new name limit now) l)
  ∧ (∀ (new : String → Nat → Option (List Submission)) (name : String) (limit : Nat)
        (now : Int), new name (limit * 3) = none →
        get_subreddit_posts new name limit now = [])
  ∧ (∀ (new : String → Nat → Option (List Submission)) (name : String) (limit : Nat)
        (now : Int) (l : List Submission), new name (limit * 3) = some l →
        (get_subreddit_posts_warned new name limit now = true ↔
          (get_subreddit_posts new name limit now).length < limit))
  ∧ (∀ (new1 new2 : String → Nat → Option (List Submission)) (name : String) (limit : Nat)
        (now : Int), new1 name (limit * 3) = new2 name (limit * 3) →
        get_subreddit_posts new1 name limit now = get_subreddit_posts new2 name limit now) := by
  refine ⟨?_, ?_, ?_, ?_, ?_, ?_, ?_⟩
  · intro new name limit now l h
    unfold get_subreddit_posts
    rw [h]
  · intro new name limit now s hs
    unfold get_subreddit_posts at hs
    cases hn : new name (limit * 3) with
    | none => rw [hn] at hs; cases hs
    | some l =>
        rw [hn] at hs
        have h1 := List.mem_of_mem_take hs
        have h2 := List.of_mem_filter h1
        exact of_decide_eq_true h2
  · intro new name limit now
    unfold get_subreddit_posts
    cases hn : new name (limit * 3) with
    | none => simp
    | some l =>
        rw [List.length_take]
        exact Nat.min_le_left _ _
  · intro new name limit now l h
    unfold get_subreddit_posts
    rw [h]
    exact (List.take_sublist _ _).trans (List.filter_sublist l)
  · intro new name limit now h
    unfold get_subreddit_posts
    rw [h]
  · intro new name limit now l h
    unfold get_subreddit_posts get_subreddit_posts_warned
    rw [h]
    exact decide_eq_true_iff
  · intro new1 new2 name limit now h
    unfold get_subreddit_posts
    rw [h]

/-- Witness: `C9_fetch_recent_posts` exercised on a concrete two-submission
fetch where one submission is older than the window and the limit is one. -/
theorem C9_fetch_recent_posts_witness :
    get_subreddit_posts
        (fun _ _ => some [⟨"old", "t1", "b1", "/p1", 0⟩, ⟨"new1", "t2", "b2", "/p2", 90000⟩])
        "desabafos" 1 100000 =
      ([⟨"old", "t1", "b1", "/p1", 0⟩, ⟨"new1", "t2", "b2", "/p2", 90000⟩].filter
          (fun s => s.created_utc ≥ 100000 - 24 * 60 * 60)).take 1
  ∧ List.Sublist
      (get_subreddit_posts
        (fun _ _ => some [⟨"old", "t1", "b1", "/p1", 0⟩, ⟨"new1", "t2", "b2", "/p2", 90000⟩])
        "desabafos" 1 100000)
      [⟨"old", "t1", "b1", "/p1", 0⟩, ⟨"new1", "t2", "b2", "/p2", 90000⟩]
  ∧ get_subreddit_posts (fun _ _ => none) "desabafos" 3 100000 = []
  ∧ (get_subreddit_posts_warned
        (fun _ _ => some [⟨"old", "t1", "b1", "/p1", 0⟩, ⟨"new1", "t2", "b2", "/p2", 90000⟩])
        "desabafos" 2 100000 = true ↔
      (get_subreddit_posts
        (fun _ _ => some [⟨"old", "t1", "b1", "/p1", 0⟩, ⟨"new1", "t2", "b2", "/p2", 90000⟩])
        "desabafos" 2 100000).length < 2)
  ∧ get_subreddit_posts (fun _ n => if n = 3 then some [] else none) "desabafos" 1 100000 =
      get_subreddit_posts (fun _ n => if n = 3 then some [] else none) "desabafos" 1 100000 :=
  ⟨C9_fetch_recent_posts.1 _ "desabafos" 1 100000 _ rfl,
   C9_fetch_recent_posts.2.2.2.1 _ "desabafos" 1 100000 _ rfl,
   C9_fetch_recent_posts.2.2.2.2.1 (fun _ _ => none) "desabafos" 3 100000 rfl,
   C9_fetch_recent_posts.2.2.2.2.2.1 _ "desabafos" 2 100000 _ rfl,
   C9_fetch_recent_posts.2.2.2.2.2.2 _ _ "desabafos" 1 100000 rfl⟩

/-- C5 is false as stated in its return-value conjunct: on a store where the
insert does occur, the function still hands its caller None (the Python body
has no return statement on any path), not whether an insert occurred. -/
theorem C5_counterexample :
    (insert_processed_post ⟨[], [], []⟩ 0 ⟨"P1", "u", "t", "b", none⟩).2 =
      WriteOutcome.inserted
  ∧ insert_processed_post_py_return ⟨[], [], []⟩ 0 ⟨"P1", "u", "t", "b", none⟩ = none
  ∧ insert_processed_post_py_return ⟨[], [], []⟩ 0 ⟨"P1", "u", "t", "b", none⟩ ≠ some true := by
  refine ⟨rfl, rfl, ?_⟩
  simp [insert_processed_post_py_return]

/-- C5 (amended): `insert_processed_post` inserts a new Post row when the
post_id is absent and is a complete no-op on the store when the post_id
already exists (first-write-wins, no field overwritten); but it does not
report whether an insert occurred: its Python return value is None in both
cases, the insert/no-op distinction being visible only in the log. -/
theorem C5_upsert_post_first_write_wins :
    (∀ (db : DB) (now : Nat) (data : PostData),
        check_post_processed db data.post_id = false →
        (insert_processed_post db now data).2 = WriteOutcome.inserted
        ∧ (insert_processed_post db now data).1.posts =
            db.posts ++ [⟨data.post_id, data.post_url, data.post_title, data.post_body,
              data.created_utc, now⟩]
        ∧ (insert_processed_post db now data).1.llm = db.llm
        ∧ (insert_processed_post db now data).1.comments = db.comments)
  ∧ (∀ (db : DB) (now : Nat) (data : PostData),
        check_post_processed db data.post_id = true →
        insert_processed_post db now data = (db, WriteOutcome.ignoredConflict))
  ∧ (∀ (db : DB) (now : Nat) (data : PostData),
        insert_processed_post_py_return db now data = none) := by
  refine ⟨?_, ?_, ?_⟩
  · intro db now data hc
    have hc2 : db.posts.any (fun r => r.post_id == data.post_id) = false := hc
    unfold insert_processed_post
    rw [if_neg (by simp [hc2])]
    exact ⟨rfl, rfl, rfl, rfl⟩
  · intro db now data hc
    have hc2 : db.posts.any (fun r => r.post_id == data.post_id) = true := hc
    unfold insert_processed_post
    rw [if_pos hc2]
  · intro db now data
    rfl

/-- Witness: `C5_upsert_post_first_write_wins` at a concrete store, once with
the post_id absent and once with it present. -/
theorem C5_upsert_post_first_write_wins_witness :
    ((insert_processed_post ⟨[], [], []⟩ 3 ⟨"P1", "u", "t", "b", none⟩).2 =
        WriteOutcome.inserted
      ∧ (insert_processed_post ⟨[], [], []⟩ 3 ⟨"P1", "u", "t", "b", none⟩).1.posts =
          [] ++ [⟨"P1", "u", "t", "b", none, 3⟩]
      ∧ (insert_processed_post ⟨[], [], []⟩ 3 ⟨"P1", "u", "t", "b", none⟩).1.llm = []
      ∧ (insert_processed_post ⟨[], [], []⟩ 3 ⟨"P1", "u", "t", "b", none⟩).1.comments = [])
  ∧ insert_processed_post ⟨[⟨"P1", "u", "t", "b", none, 0⟩], [], []⟩ 3
      ⟨"P1", "u2", "t2", "b2", none⟩ =
      (⟨[⟨"P1", "u", "t", "b", none, 0⟩], [], []⟩, WriteOutcome.ignoredConflict) :=
  ⟨C5_upsert_post_first_write_wins.1 ⟨[], [], []⟩ 3 ⟨"P1", "u", "t", "b", none⟩ (by decide),
   C5_upsert_post_first_write_wins.2.1 ⟨[⟨"P1", "u", "t", "b", none, 0⟩], [], []⟩ 3
     ⟨"P1", "u2", "t2", "b2", none⟩ (by decide)⟩

/-- C4: upserting a Comment whose comment_id already exists updates exactly
comment_score, is_actual_advice, similarity_score and fetched_at of the
stored row; its comment_rank, comment_body and post_id keep their stored
values even when the incoming record differs there, and the other two tables
are untouched. -/
theorem C4_comment_upsert_frame :
    ∀ (db : DB) (now : Nat) (c : CommentData) (old : CommentRow),
      db.comments.find? (fun r => r.comment_id == c.comment_id) = some old →
      (insert_post_comment db now c).2 = WriteOutcome.updated
      ∧ (insert_post_comment db now c).1.comments.find?
            (fun r => r.comment_id == c.comment_id) =
          some { old with
            comment_score := c.comment_score
            is_actual_advice := c.is_actual_advice
            similarity_score := c.similarity_score
            fetched_at := now }
      ∧ (insert_post_comment db now c).1.posts = db.posts
      ∧ (insert_post_comment db now c).1.llm = db.llm := by
  intro db now c old hfind
  have hpold : (old.comment_id == c.comment_id) = true := by
    have h := List.find?_some hfind
    exact h
  have hany : db.comments.any (fun r => r.comment_id == c.comment_id) = true :=
    List.any_eq_true.mpr ⟨old, List.mem_of_find?_eq_some hfind, hpold⟩
  unfold insert_post_comment
  rw [if_pos hany]
  refine ⟨rfl, ?_, rfl, rfl⟩
  rw [List.find?_map]
  have hcomp : ((fun r : CommentRow => r.comment_id == c.comment_id) ∘
      (fun r : CommentRow =>
        if r.comment_id == c.comment_id then
          { r with
            comment_score := c.comment_score
            is_actual_advice := c.is_actual_advice
            similarity_score := c.similarity_score
            fetched_at := now }
        else r)) = (fun r : CommentRow => r.comment_id == c.comment_id) := by
    funext r
    simp only [Function.comp_apply]
    by_cases h : (r.comment_id == c.comment_id) = true
    · rw [if_pos h]
    · rw [if_neg h]
  rw [hcomp, hfind, Option.map_some', if_pos hpold]

/-- Witness: `C4_comment_upsert_frame` on a concrete store, with an incoming
record that carries a different rank and body than the stored row. -/
theorem C4_comment_upsert_frame_witness :
    (insert_post_comment
        ⟨[⟨"P1", "u", "t", "b", none, 0⟩], [], [⟨"P1", "c1", "orig", 1, 1, none, none, 0⟩]⟩ 9
        ⟨"P1", "c1", "newbody", 42, 7, some true, none⟩).2 = WriteOutcome.updated
  ∧ (insert_post_comment
        ⟨[⟨"P1", "u", "t", "b", none, 0⟩], [], [⟨"P1", "c1", "orig", 1, 1, none, none, 0⟩]⟩ 9
        ⟨"P1", "c1", "newbody", 42, 7, some true, none⟩).1.comments.find?
      (fun r => r.comment_id == "c1") = some ⟨"P1", "c1", "orig", 42, 1, some true, none, 9⟩
  ∧ (insert_post_comment
        ⟨[⟨"P1", "u", "t", "b", none, 0⟩], [], [⟨"P1", "c1", "orig", 1, 1, none, none, 0⟩]⟩ 9
        ⟨"P1", "c1", "newbody", 42, 7, some true, none⟩).1.posts =
      [⟨"P1", "u", "t", "b", none, 0⟩]
  ∧ (insert_post_comment
        ⟨[⟨"P1", "u", "t", "b", none, 0⟩], [], [⟨"P1", "c1", "orig", 1, 1, none, none, 0⟩]⟩ 9
        ⟨"P1", "c1", "newbody", 42, 7, some true, none⟩).1.llm = [] :=
  C4_comment_upsert_frame
    ⟨[⟨"P1", "u", "t", "b", none, 0⟩], [], [⟨"P1", "c1", "orig", 1, 1, none, none, 0⟩]⟩ 9
    ⟨"P1", "c1", "newbody", 42, 7, some true, none⟩ ⟨"P1", "c1", "orig", 1, 1, none, none, 0⟩
    rfl

/-- Store-preservation facts for the writes: each function touches only its
own table. -/
lemma insert_post_comment_posts (db : DB) (now : Nat) (c : CommentData) :
    (insert_post_comment db now c).1.posts = db.posts := by
  unfold insert_post_comment
  split_ifs <;> rfl

/-- The comment upsert leaves the advice table unchanged. -/
lemma insert_post_comment_llm (db : DB) (now : Nat) (c : CommentData) :
    (insert_post_comment db now c).1.llm = db.llm := by
  unfold insert_post_comment
  split_ifs <;> rfl

/-- The advice upsert leaves the post table unchanged. -/
lemma insert_llm_data_posts (db : DB) (now : Nat) (pid p r : String) :
    (insert_llm_data db now pid p r).1.posts = db.posts := by
  unfold insert_llm_data
  split_ifs <;> rfl

/-- The advice upsert leaves the comment table unchanged. -/
lemma insert_llm_data_comments (db : DB) (now : Nat) (pid p r : String) :
    (insert_llm_data db now pid p r).1.comments = db.comments := by
  unfold insert_llm_data
  split_ifs <;> rfl

/-- The post upsert leaves the advice table unchanged. -/
lemma insert_processed_post_llm (db : DB) (now : Nat) (data : PostData) :
    (insert_processed_post db now data).1.llm = db.llm := by
  unfold insert_processed_post
  split_ifs <;> rfl

/-- The post upsert leaves the comment table unchanged. -/
lemma insert_processed_post_comments (db : DB) (now : Nat) (data : PostData) :
    (insert_processed_post db now data).1.comments = db.comments := by
  unfold insert_processed_post
  split_ifs <;> rfl

/-- An existing Post row survives the post upsert. -/
lemma check_post_processed_insert_mono (db : DB) (now : Nat) (data : PostData) (pid : String)
    (h : check_post_processed db pid = true) :
    check_post_processed (insert_processed_post db now data).1 pid = true := by
  unfold insert_processed_post
  split_ifs with hc
  · exact h
  · unfold check_post_processed at h ⊢
    simp only [List.any_append, h, Bool.true_or]

/-- After the post upsert the upserted post_id always has a Post row. -/
lemma check_post_processed_after_insert (db : DB) (now : Nat) (data : PostData) :
    check_post_processed (insert_processed_post db now data).1 data.post_id = true := by
  unfold insert_processed_post check_post_processed
  split_ifs with hc
  · exact hc
  · simp [List.any_append]

/-- After the advice upsert on a post_id that has a Post row, an Advice row
with that post_id is present. -/
lemma insert_llm_data_any (db : DB) (now : Nat) (pid p r : String)
    (h : check_post_processed db pid = true) :
    ((insert_llm_data db now pid p r).1.llm.any (fun x => x.post_id == pid)) = true := by
  unfold insert_llm_data
  split_ifs with h1 h2
  · rw [List.any_map]
    obtain ⟨x, hxm, hxp⟩ := List.any_eq_true.mp h1
    refine List.any_eq_true.mpr ⟨x, hxm, ?_⟩
    simp only [Function.comp_apply]
    rw [if_pos hxp]
    exact hxp
  · simp [List.any_append]
  · exact absurd h h2

/-- The inner comment loop touches only the comment table: the post table is
preserved by the fold. -/
lemma foldl_processComment_posts (env : Env) (s : Submission) (advice : String) (now : Nat) :
    ∀ (l : List (Nat × CommentInfo)) (db : DB),
      (l.foldl (fun d rc => processComment env s advice now d rc.1 rc.2) db).posts = db.posts
  | [], _ => rfl
  | rc :: l, db => by
      rw [List.foldl_cons, foldl_processComment_posts env s advice now l]
      exact insert_post_comment_posts db now _

/-- The inner comment loop preserves the advice table. -/
lemma foldl_processComment_llm (env : Env) (s : Submission) (advice : String) (now : Nat) :
    ∀ (l : List (Nat × CommentInfo)) (db : DB),
      (l.foldl (fun d rc => processComment env s advice now d rc.1 rc.2) db).llm = db.llm
  | [], _ => rfl
  | rc :: l, db => by
      rw [List.foldl_cons, foldl_processComment_llm env s advice now l]
      exact insert_post_comment_llm db now _

/-- C3 is false as stated on one branch: a Comment upsert whose comment_id is
already stored is resolved as an ON CONFLICT update even when the incoming
post_id has no Post row, so no referential-integrity error is raised and the
write is not abandoned (checked against a live SQLite: the update applies and
the stored row keeps its original, valid post_id).  Concrete input: store with
Post "P1" and its comment "c1"; upsert of comment_id "c1" carrying the absent
post_id "P2". -/
theorem C3_counterexample :
    check_post_processed
        ⟨[⟨"P1", "u", "t", "b", none, 0⟩], [], [⟨"P1", "c1", "body", 10, 1, none, none, 0⟩]⟩
        "P2" = false
  ∧ (insert_post_comment
        ⟨[⟨"P1", "u", "t", "b", none, 0⟩], [], [⟨"P1", "c1", "body", 10, 1, none, none, 0⟩]⟩ 5
        ⟨"P2", "c1", "body2", 99, 7, some true, none⟩).2 = WriteOutcome.updated
  ∧ (insert_post_comment
        ⟨[⟨"P1", "u", "t", "b", none, 0⟩], [], [⟨"P1", "c1", "body", 10, 1, none, none, 0⟩]⟩ 5
        ⟨"P2", "c1", "body2", 99, 7, some true, none⟩).1 ≠
      ⟨[⟨"P1", "u", "t", "b", none, 0⟩], [], [⟨"P1", "c1", "body", 10, 1, none, none, 0⟩]⟩ := by
  refine ⟨rfl, rfl, ?_⟩
  decide

/-- C3 (amended): an Advice upsert issued while no Post row with the given
post_id exists fails with a referential-integrity error and is rolled back
(given store referential integrity, which rules out a conflicting Advice
row); a Comment upsert whose comment_id is fresh likewise fails and writes
nothing when its post_id has no Post row; a Comment upsert on an existing
comment_id is instead resolved as an update of the stored row, which keeps
its stored post_id; consequently referential integrity of the store is
preserved by every write and no orphaned Advice or Comment row is ever
created; and within a successful post run the Post row is persisted before
the Advice upsert, whose error branch is therefore unreachable, leaving both
rows present. -/
theorem C3_referential_integrity :
    (∀ (db : DB) (now : Nat) (pid p r : String), fk_ok db = true →
        check_post_processed db pid = false →
        insert_llm_data db now pid p r = (db, WriteOutcome.fkError))
  ∧ (∀ (db : DB) (now : Nat) (c : CommentData),
        check_post_processed db c.post_id = false →
        (db.comments.any (fun x => x.comment_id == c.comment_id)) = false →
        insert_post_comment db now c = (db, WriteOutcome.fkError))
  ∧ (∀ (db : DB) (now : Nat) (data : PostData), fk_ok db = true →
        fk_ok (insert_processed_post db now data).1 = true)
  ∧ (∀ (db : DB) (now : Nat) (pid p r : String), fk_ok db = true →
        fk_ok (insert_llm_data db now pid p r).1 = true)
  ∧ (∀ (db : DB) (now : Nat) (c : CommentData), fk_ok db = true →
        fk_ok (insert_post_comment db now c).1 = true)
  ∧ (∀ (db : DB) (now : Nat) (data : PostData) (p r : String),
        (insert_llm_data (insert_processed_post db now data).1 now data.post_id p r).2 ≠
          WriteOutcome.fkError)
  ∧ (∀ (env : Env) (db : DB) (now : Nat) (s : Submission) (r : LlmOpResult),
        env.interrupt s.id = false →
        check_post_processed db s.id = false →
        env.raises s.id = false →
        env.llm_op s.title s.selftext = some r →
        check_post_processed (processOne env db now s).1.db s.id = true ∧
        ((processOne env db now s).1.db.llm.any (fun x => x.post_id == s.id)) = true) := by
  refine ⟨?_, ?_, ?_, ?_, ?_, ?_, ?_⟩
  · intro db now pid p r hfk hc
    have hc2 : db.posts.any (fun x => x.post_id == pid) = false := hc
    have h1 : db.llm.any (fun x => x.post_id == pid) = false := by
      by_contra hx
      rw [Bool.not_eq_false] at hx
      obtain ⟨x, hxm, hxp⟩ := List.any_eq_true.mp hx
      unfold fk_ok at hfk
      rw [Bool.and_eq_true] at hfk
      have h2 := List.all_eq_true.mp hfk.1 x hxm
      rw [eq_of_beq hxp] at h2
      rw [h2] at hc
      cases hc
    unfold insert_llm_data
    rw [if_neg (by simp [h1]), if_neg (by simp [hc2])]
  · intro db now c hpost hcom
    have hc2 : db.posts.any (fun x => x.post_id == c.post_id) = false := hpost
    unfold insert_post_comment
    rw [if_neg (by simp [hcom]), if_neg (by simp [hc2])]
  · intro db now data hfk
    unfold insert_processed_post
    split_ifs with hc
    · exact hfk
    · unfold fk_ok at hfk ⊢
      rw [Bool.and_eq_true] at hfk ⊢
      refine ⟨List.all_eq_true.mpr ?_, List.all_eq_true.mpr ?_⟩
      · intro x hx
        have h2 := List.all_eq_true.mp hfk.1 x hx
        unfold check_post_processed at h2 ⊢
        simp only [List.any_append, h2, Bool.true_or]
      · intro x hx
        have h2 := List.all_eq_true.mp hfk.2 x hx
        unfold check_post_processed at h2 ⊢
        simp only [List.any_append, h2, Bool.true_or]
  · intro db now pid p r hfk
    unfold insert_llm_data
    split_ifs with h1 h2
    · unfold fk_ok at hfk ⊢
      rw [Bool.and_eq_true] at hfk ⊢
      refine ⟨List.all_eq_true.mpr ?_, hfk.2⟩
      intro x hx
      rw [List.mem_map] at hx
      obtain ⟨y, hym, hyx⟩ := hx
      have h2 := List.all_eq_true.mp hfk.1 y hym
      subst hyx
      by_cases hy : (y.post_id == pid) = true
      · rw [if_pos hy]
        exact h2
      · rw [if_neg hy]
        exact h2
    · unfold fk_ok at hfk ⊢
      rw [Bool.and_eq_true] at hfk ⊢
      refine ⟨List.all_eq_true.mpr ?_, hfk.2⟩
      intro x hx
      rw [List.mem_append] at hx
      cases hx with
      | inl hx => exact List.all_eq_true.mp hfk.1 x hx
      | inr hx =>
          rw [List.mem_singleton] at hx
          subst hx
          exact h2
    · exact hfk
  · intro db now c hfk
    unfold insert_post_comment
    split_ifs with h1 h2
    · unfold fk_ok at hfk ⊢
      rw [Bool.and_eq_true] at hfk ⊢
      refine ⟨hfk.1, List.all_eq_true.mpr ?_⟩
      intro x hx
      rw [List.mem_map] at hx
      obtain ⟨y, hym, hyx⟩ := hx
      have h2 := List.all_eq_true.mp hfk.2 y hym
      subst hyx
      by_cases hy : (y.comment_id == c.comment_id) = true
      · rw [if_pos hy]
        exact h2
      · rw [if_neg hy]
        exact h2
    · unfold fk_ok at hfk ⊢
      rw [Bool.and_eq_true] at hfk ⊢
      refine ⟨hfk.1, List.all_eq_true.mpr ?_⟩
      intro x hx
      rw [List.mem_append] at hx
      cases hx with
      | inl hx => exact List.all_eq_true.mp hfk.2 x hx
      | inr hx =>
          rw [List.mem_singleton] at hx
          subst hx
          exact h2
    · exact hfk
  · intro db now data p r
    have hpost := check_post_processed_after_insert db now data
    unfold insert_llm_data
    split_ifs with h1 h2
    · simp
    · simp
    · exact absurd hpost h2
  · intro env db now s r hi hc hr hl
    simp only [processOne, hi, hc, hr, hl]
    rw [if_neg (by simp), if_neg (by simp), if_neg (by simp)]
    have hid : (extract_post_data s).post_id = s.id := rfl
    have hdb1 : check_post_processed (insert_processed_post db now (extract_post_data s)).1
        s.id = true := by
      rw [← hid]
      exact check_post_processed_after_insert db now (extract_post_data s)
    by_cases hcs : (env.top_comments s.id).isEmpty
    · rw [if_pos hcs]
      constructor
      · unfold check_post_processed at hdb1 ⊢
        rw [insert_llm_data_posts]
        exact hdb1
      · exact insert_llm_data_any _ now s.id r.prompt r.response hdb1
    · rw [if_neg hcs]
      have hdb2 : check_post_processed
          (insert_llm_data (insert_processed_post db now (extract_post_data s)).1 now s.id
            r.prompt r.response).1 s.id = true := by
        unfold check_post_processed at hdb1 ⊢
        rw [insert_llm_data_posts]
        exact hdb1
      have hdb3 : check_post_processed
          (processComments env s r.response now
            (insert_llm_data (insert_processed_post db now (extract_post_data s)).1 now s.id
              r.prompt r.response).1 (env.top_comments s.id)) s.id = true := by
        unfold check_post_processed at hdb2 ⊢
        unfold processComments
        rw [foldl_processComment_posts]
        exact hdb2
      constructor
      · exact check_post_processed_insert_mono _ now (extract_post_data s) s.id hdb3
      · have hany2 := insert_llm_data_any
          (insert_processed_post db now (extract_post_data s)).1 now s.id r.prompt r.response hdb1
        have e1 : (insert_processed_post
            (processComments env s r.response now
              (insert_llm_data (insert_processed_post db now (extract_post_data s)).1 now s.id
                r.prompt r.response).1 (env.top_comments s.id)) now (extract_post_data s)).1.llm =
            (insert_llm_data (insert_processed_post db now (extract_post_data s)).1 now s.id
              r.prompt r.response).1.llm := by
          rw [insert_processed_post_llm]
          unfold processComments
          rw [foldl_processComment_llm]
        rw [e1]
        exact hany2

/-- Witness: the hypothesis-bearing conjuncts of `C3_referential_integrity`
at concrete inputs: an advice and a comment upsert against an empty store,
integrity preservation across a concrete insert, and a full successful post
run against a one-post environment. -/
theorem C3_referential_integrity_witness :
    insert_llm_data ⟨[], [], []⟩ 0 "P" "pr" "re" = (⟨[], [], []⟩, WriteOutcome.fkError)
  ∧ insert_post_comment ⟨[], [], []⟩ 0 ⟨"P", "c", "b", 1, 1, none, none⟩ =
      (⟨[], [], []⟩, WriteOutcome.fkError)
  ∧ fk_ok (insert_processed_post ⟨[], [], []⟩ 0 ⟨"P1", "u", "t", "b", none⟩).1 = true
  ∧ fk_ok (insert_llm_data ⟨[⟨"P1", "u", "t", "b", none, 0⟩], [], []⟩ 1 "P1" "pr" "re").1 = true
  ∧ fk_ok (insert_post_comment ⟨[⟨"P1", "u", "t", "b", none, 0⟩], [], []⟩ 1
      ⟨"P1", "c", "b", 1, 1, none, none⟩).1 = true
  ∧ (check_post_processed
        (processOne
          ⟨fun _ => false, fun _ => false, fun _ _ => some ⟨"prompt", "advice"⟩,
            fun _ => [⟨"c1", "body", 3⟩], fun _ _ _ => some true, fun _ _ => none⟩
          ⟨[], [], []⟩ 0 ⟨"p1", "t", "b", "/p", 5⟩).1.db "p1" = true ∧
      ((processOne
          ⟨fun _ => false, fun _ => false, fun _ _ => some ⟨"prompt", "advice"⟩,
            fun _ => [⟨"c1", "body", 3⟩], fun _ _ _ => some true, fun _ _ => none⟩
          ⟨[], [], []⟩ 0 ⟨"p1", "t", "b", "/p", 5⟩).1.db.llm.any
        (fun x => x.post_id == "p1")) = true) :=
  ⟨C3_referential_integrity.1 ⟨[], [], []⟩ 0 "P" "pr" "re" (by decide) (by decide),
   C3_referential_integrity.2.1 ⟨[], [], []⟩ 0 ⟨"P", "c", "b", 1, 1, none, none⟩ (by decide)
     (by decide),
   C3_referential_integrity.2.2.1 ⟨[], [], []⟩ 0 ⟨"P1", "u", "t", "b", none⟩ (by decide),
   C3_referential_integrity.2.2.2.1 ⟨[⟨"P1", "u", "t", "b", none, 0⟩], [], []⟩ 1 "P1" "pr" "re"
     (by decide),
   C3_referential_integrity.2.2.2.2.1 ⟨[⟨"P1", "u", "t", "b", none, 0⟩], [], []⟩ 1
     ⟨"P1", "c", "b", 1, 1, none, none⟩ (by decide),
   C3_referential_integrity.2.2.2.2.2.2
     ⟨fun _ => false, fun _ => false, fun _ _ => some ⟨"prompt", "advice"⟩,
       fun _ => [⟨"c1", "body", 3⟩], fun _ _ _ => some true, fun _ _ => none⟩
     ⟨[], [], []⟩ 0 ⟨"p1", "t", "b", "/p", 5⟩ ⟨"prompt", "advice"⟩ rfl (by decide) rfl rfl⟩

/-- The loop body on an already-processed post: no work, no sleeps, no
advice call. -/
lemma processOne_skip (env : Env) (db : DB) (now : Nat) (s : Submission)
    (hi : env.interrupt s.id = false) (hc : check_post_processed db s.id = true) :
    processOne env db now s = (⟨db, [], []⟩, StepTag.skippedStep) := by
  simp [processOne, hi, hc]

/-- The loop body on a post whose processing raises: state unchanged, the
extended delay, no advice call. -/
lemma processOne_raise (env : Env) (db : DB) (now : Nat) (s : Submission)
    (hi : env.interrupt s.id = false) (hc : check_post_processed db s.id = false)
    (hr : env.raises s.id = true) :
    processOne env db now s = (⟨db, [POST_PROCESSING_DELAY * 2], []⟩, StepTag.failedStep) := by
  simp [processOne, hi, hc, hr]

/-- The loop body on a post whose advice call fails: state unchanged, the
intra-post and pacing delays, one advice call. -/
lemma processOne_advice_failure (env : Env) (db : DB) (now : Nat) (s : Submission)
    (hi : env.interrupt s.id = false) (hc : check_post_processed db s.id = false)
    (hr : env.raises s.id = false) (hl : env.llm_op s.title s.selftext = none) :
    processOne env db now s =
      (⟨db, [INTRA_POST_LLM_DELAY, POST_PROCESSING_DELAY], [(s.title, s.selftext)]⟩,
        StepTag.failedStep) := by
  simp [processOne, hi, hc, hr, hl]

/-- Unfolding of the loop on a skipped post. -/
lemma runLoop_skip (env : Env) (st : RunState) (s : Submission) (rest : List Submission)
    (hi : env.interrupt s.id = false) (hc : check_post_processed st.db s.id = true) :
    runLoop env st (s :: rest) =
      runLoop env
        { st with clock := st.clock + 1, skipped_count := st.skipped_count + 1 } rest := by
  simp [runLoop, processOne_skip env st.db st.clock s hi hc]

/-- C1: when the advice call for a fresh post fails, the body writes no Post,
Advice or Comment row (the store is passed on unchanged), the failed counter
is incremented, the intra-post and pacing delays run, and the loop continues
with the rest of the batch. -/
theorem C1_advice_failure_all_or_nothing :
    ∀ (env : Env) (st : RunState) (s : Submission) (rest : List Submission),
      env.interrupt s.id = false →
      check_post_processed st.db s.id = false →
      env.raises s.id = false →
      env.llm_op s.title s.selftext = none →
      runLoop env st (s :: rest) =
        runLoop env
          { st with
            clock := st.clock + 1
            error_count := st.error_count + 1
            sleeps := st.sleeps ++ [INTRA_POST_LLM_DELAY, POST_PROCESSING_DELAY]
            llm_op_calls := st.llm_op_calls ++ [(s.title, s.selftext)] } rest := by
  intro env st s rest hi hc hr hl
  simp [runLoop, processOne_advice_failure env st.db st.clock s hi hc hr hl]

/-- Witness: `C1_advice_failure_all_or_nothing` on a concrete one-post batch
against an environment whose advice call fails. -/
theorem C1_advice_failure_all_or_nothing_witness :
    runLoop
        ⟨fun _ => false, fun _ => false, fun _ _ => none, fun _ => [], fun _ _ _ => none,
          fun _ _ => none⟩
        ⟨⟨[], [], []⟩, 0, 0, 0, 0, [], []⟩ [⟨"p1", "t", "b", "/p", 5⟩] =
      runLoop
        ⟨fun _ => false, fun _ => false, fun _ _ => none, fun _ => [], fun _ _ _ => none,
          fun _ _ => none⟩
        ⟨⟨[], [], []⟩, 1, 0, 0, 1, [INTRA_POST_LLM_DELAY, POST_PROCESSING_DELAY], [("t", "b")]⟩
        [] :=
  C1_advice_failure_all_or_nothing
    ⟨fun _ => false, fun _ => false, fun _ _ => none, fun _ => [], fun _ _ _ => none,
      fun _ _ => none⟩
    ⟨⟨[], [], []⟩, 0, 0, 0, 0, [], []⟩ ⟨"p1", "t", "b", "/p", 5⟩ [] rfl (by decide) rfl rfl

/-- C2: a post whose post_id already has a Post row is skipped with no work:
the skip counter is bumped, the store, the sleep trace and the advice-call
trace are unchanged; consequently a whole second run over a fully committed
batch leaves the store and the Post/Advice row counts unchanged, issues no
advice call, and counts every post as skipped. -/
theorem C2_skip_idempotency :
    (∀ (env : Env) (st : RunState) (s : Submission) (rest : List Submission),
        env.interrupt s.id = false →
        check_post_processed st.db s.id = true →
        runLoop env st (s :: rest) =
          runLoop env
            { st with clock := st.clock + 1, skipped_count := st.skipped_count + 1 } rest)
  ∧ (∀ (env : Env) (st : RunState) (batch : List Submission),
        (∀ s ∈ batch, env.interrupt s.id = false ∧ check_post_processed st.db s.id = true) →
        (runLoop env st batch).db = st.db
        ∧ (runLoop env st batch).skipped_count = st.skipped_count + batch.length
        ∧ (runLoop env st batch).processed_count = st.processed_count
        ∧ (runLoop env st batch).error_count = st.error_count
        ∧ (runLoop env st batch).llm_op_calls = st.llm_op_calls) := by
  constructor
  · intro env st s rest hi hc
    exact runLoop_skip env st s rest hi hc
  · intro env st batch
    induction batch generalizing st with
    | nil =>
        intro _
        exact ⟨rfl, by simp [runLoop], rfl, rfl, rfl⟩
    | cons s rest ih =>
        intro h
        obtain ⟨hi, hc⟩ := h s (List.mem_cons_self s rest)
        rw [runLoop_skip env st s rest hi hc]
        obtain ⟨h1, h2, h3, h4, h5⟩ :=
          ih { st with clock := st.clock + 1, skipped_count := st.skipped_count + 1 }
            (fun x hx => h x (List.mem_cons_of_mem s hx))
        refine ⟨h1, ?_, h3, h4, h5⟩
        rw [h2]
        simp [List.length_cons]
        omega

/-- Witness: `C2_skip_idempotency` on a concrete store holding post p1 and a
batch consisting of that post twice: everything is skipped and nothing
changes. -/
theorem C2_skip_idempotency_witness :
    runLoop
        ⟨fun _ => false, fun _ => false, fun _ _ => some ⟨"pr", "re"⟩, fun _ => [],
          fun _ _ _ => none, fun _ _ => none⟩
        ⟨⟨[⟨"p1", "u", "t", "b", none, 0⟩], [], []⟩, 0, 0, 0, 0, [], []⟩
        [⟨"p1", "t", "b", "/p", 5⟩, ⟨"p1", "t", "b", "/p", 5⟩] =
      runLoop
        ⟨fun _ => false, fun _ => false, fun _ _ => some ⟨"pr", "re"⟩, fun _ => [],
          fun _ _ _ => none, fun _ _ => none⟩
        ⟨⟨[⟨"p1", "u", "t", "b", none, 0⟩], [], []⟩, 1, 0, 1, 0, [], []⟩
        [⟨"p1", "t", "b", "/p", 5⟩]
  ∧ (runLoop
        ⟨fun _ => false, fun _ => false, fun _ _ => some ⟨"pr", "re"⟩, fun _ => [],
          fun _ _ _ => none, fun _ _ => none⟩
        ⟨⟨[⟨"p1", "u", "t", "b", none, 0⟩], [], []⟩, 0, 0, 0, 0, [], []⟩
        [⟨"p1", "t", "b", "/p", 5⟩, ⟨"p1", "t", "b", "/p", 5⟩]).db =
      ⟨[⟨"p1", "u", "t", "b", none, 0⟩], [], []⟩
  ∧ (runLoop
        ⟨fun _ => false, fun _ => false, fun _ _ => some ⟨"pr", "re"⟩, fun _ => [],
          fun _ _ _ => none, fun _ _ => none⟩
        ⟨⟨[⟨"p1", "u", "t", "b", none, 0⟩], [], []⟩, 0, 0, 0, 0, [], []⟩
        [⟨"p1", "t", "b", "/p", 5⟩, ⟨"p1", "t", "b", "/p", 5⟩]).skipped_count = 0 + 2
  ∧ (runLoop
        ⟨fun _ => false, fun _ => false, fun _ _ => some ⟨"pr", "re"⟩, fun _ => [],
          fun _ _ _ => none, fun _ _ => none⟩
        ⟨⟨[⟨"p1", "u", "t", "b", none, 0⟩], [], []⟩, 0, 0, 0, 0, [], []⟩
        [⟨"p1", "t", "b", "/p", 5⟩, ⟨"p1", "t", "b", "/p", 5⟩]).llm_op_calls = [] :=
  ⟨C2_skip_idempotency.1
     ⟨fun _ => false, fun _ => false, fun _ _ => some ⟨"pr", "re"⟩, fun _ => [],
       fun _ _ _ => none, fun _ _ => none⟩
     ⟨⟨[⟨"p1", "u", "t", "b", none, 0⟩], [], []⟩, 0, 0, 0, 0, [], []⟩
     ⟨"p1", "t", "b", "/p", 5⟩ [⟨"p1", "t", "b", "/p", 5⟩] rfl (by decide),
   (C2_skip_idempotency.2
     ⟨fun _ => false, fun _ => false, fun _ _ => some ⟨"pr", "re"⟩, fun _ => [],
       fun _ _ _ => none, fun _ _ => none⟩
     ⟨⟨[⟨"p1", "u", "t", "b", none, 0⟩], [], []⟩, 0, 0, 0, 0, [], []⟩
     [⟨"p1", "t", "b", "/p", 5⟩, ⟨"p1", "t", "b", "/p", 5⟩] (by decide)).1,
   (C2_skip_idempotency.2
     ⟨fun _ => false, fun _ => false, fun _ _ => some ⟨"pr", "re"⟩, fun _ => [],
       fun _ _ _ => none, fun _ _ => none⟩
     ⟨⟨[⟨"p1", "u", "t", "b", none, 0⟩], [], []⟩, 0, 0, 0, 0, [], []⟩
     [⟨"p1", "t", "b", "/p", 5⟩, ⟨"p1", "t", "b", "/p", 5⟩] (by decide)).2.1,
   (C2_skip_idempotency.2
     ⟨fun _ => false, fun _ => false, fun _ _ => some ⟨"pr", "re"⟩, fun _ => [],
       fun _ _ _ => none, fun _ _ => none⟩
     ⟨⟨[⟨"p1", "u", "t", "b", none, 0⟩], [], []⟩, 0, 0, 0, 0, [], []⟩
     [⟨"p1", "t", "b", "/p", 5⟩, ⟨"p1", "t", "b", "/p", 5⟩] (by decide)).2.2.2.2⟩

/-- C8: an unexpected exception while processing one post is caught at the
post boundary: the failed counter is incremented, the extended pacing delay
(twice the normal one) runs, the store is passed on unchanged, and the loop
continues with the rest of the batch, so one crash never aborts the run. -/
theorem C8_per_post_exception_contained :
    ∀ (env : Env) (st : RunState) (s : Submission) (rest : List Submission),
      env.interrupt s.id = false →
      check_post_processed st.db s.id = false →
      env.raises s.id = true →
      runLoop env st (s :: rest) =
        runLoop env
          { st with
            clock := st.clock + 1
            error_count := st.error_count + 1
            sleeps := st.sleeps ++ [POST_PROCESSING_DELAY * 2] } rest := by
  intro env st s rest hi hc hr
  simp [runLoop, processOne_raise env st.db st.clock s hi hc hr]

/-- Witness: `C8_per_post_exception_contained` on a two-post batch whose
first post raises: the second post is still processed afterwards. -/
theorem C8_per_post_exception_contained_witness :
    runLoop
        ⟨fun _ => false, fun i => i == "p1", fun _ _ => none, fun _ => [], fun _ _ _ => none,
          fun _ _ => none⟩
        ⟨⟨[], [], []⟩, 0, 0, 0, 0, [], []⟩
        [⟨"p1", "t", "b", "/p", 5⟩, ⟨"p2", "t2", "b2", "/q", 6⟩] =
      runLoop
        ⟨fun _ => false, fun i => i == "p1", fun _ _ => none, fun _ => [], fun _ _ _ => none,
          fun _ _ => none⟩
        ⟨⟨[], [], []⟩, 1, 0, 0, 1, [POST_PROCESSING_DELAY * 2], []⟩
        [⟨"p2", "t2", "b2", "/q", 6⟩] :=
  C8_per_post_exception_contained
    ⟨fun _ => false, fun i => i == "p1", fun _ _ => none, fun _ => [], fun _ _ _ => none,
      fun _ _ => none⟩
    ⟨⟨[], [], []⟩, 0, 0, 0, 0, [], []⟩ ⟨"p1", "t", "b", "/p", 5⟩
    [⟨"p2", "t2", "b2", "/q", 6⟩] rfl (by decide) rfl

end LlmTherapist
